import Mathlib

/-!
Shallow embedding of the Rentys room-rental client (pranavfatkar77-dotcom/rentys-ai-rooms).

The request lifecycle lives in three client files:
  - src/pages/RoomDetails.tsx      : fetchRoomDetails, handleSendRequest (the create path)
  - src/pages/OwnerDashboard.tsx   : fetchOwnerData (the listForOwner query), handleRequestAction
                                     (the decide path), and the rendering guards at lines 259 and 272
  - src/components/owner/AddRoomForm.tsx : handleSubmit (room insertion)

The backend is a managed store holding three tables (profiles, rooms, requests); the client
reads and writes them directly. We model the tables as lists, a session as an optional user id,
and each operation as a pure function from the table state (plus its inputs) to the new table
state together with the tagged error of the failing path, if any. The error tags follow the
taxonomy of the design document; each tag is attached to the concrete throw/guard in the source
that produces the corresponding failure. Backend/network failures and timestamps generated by
the store are not modelled.
-/

/-- A row of the profiles table: profiles(id, user_id, role, name, email, phone). -/
structure Profile where
  id : Nat
  user_id : Nat
  role : String
  name : String
  email : String
  phone : String
deriving DecidableEq

/-- The six amenity flags of a room, as fixed in AddRoomForm's features record. -/
structure Features where
  wifi : Bool
  electricity : Bool
  water : Bool
  parking : Bool
  furnished : Bool
  security : Bool
deriving DecidableEq

/-- A row of the rooms table: rooms(id, owner_id, address fields, rent, room_type, features,
is_active). The images column is not modelled (placeholders only in the UI). Rent is kept as an
integer; the client parses the form string with parseFloat before insertion, which we take as
already done. -/
structure Room where
  id : Nat
  owner_id : Nat
  address_line : String
  city : String
  district : String
  taluka : String
  state : String
  pincode : String
  landmark : String
  rent : Int
  room_type : String
  features : Features
  is_active : Bool
deriving DecidableEq

/-- A row of the requests table: requests(id, room_id, tenant_id, owner_id, message, status).
The status column is a plain string in the source; the values written by the client are
"pending", "accepted" and "rejected". created_at is a store-generated timestamp, not modelled. -/
structure Request where
  id : Nat
  room_id : Nat
  tenant_id : Nat
  owner_id : Nat
  message : String
  status : String
deriving DecidableEq

/-- The backend tables the client reads and writes. -/
structure DB where
  profiles : List Profile
  rooms : List Room
  requests : List Request
deriving DecidableEq

/-- The error taxonomy of the design document. Each constructor tags one failing path of the
client code: notAuthenticated for the "Not authenticated" throw when getUser yields no user,
profileNotFound for the "Profile not found" throw when the profile lookup yields no row,
validationError for the room fetch failing to resolve the id (RoomDetails navigates away and the
send path never runs). forbidden and invalidTransition are part of the taxonomy but, as the
theorems below establish, no client code path produces them. -/
inductive ReqError where
  | notAuthenticated
  | profileNotFound
  | validationError
  | forbidden
  | invalidTransition
deriving DecidableEq

/-- RoomDetails.fetchRoomDetails: select from rooms where id = roomId, .single(). Note that the
query has no condition on is_active: an inactive room resolves like any other. -/
def fetchRoomDetails (db : DB) (roomId : Nat) : Option Room :=
  db.rooms.find? (fun rm => rm.id = roomId)

/-- The message actually inserted by handleSendRequest, line 93 of RoomDetails.tsx:
message || "I'm interested in this room". In JavaScript the empty string is falsy, so an empty
message is replaced by the default text and any non-empty message is kept verbatim. -/
def requestMessage (message : String) : String :=
  if message = "" then "I\x27m interested in this room" else message

/-- The requests row handleSendRequest inserts (RoomDetails.tsx lines 86 to 96): room_id and
owner_id copied from the fetched room, tenant_id from the resolved profile, message defaulted by
requestMessage, status "pending". freshId stands for the store-generated id of the new row. -/
def newRequest (room : Room) (profile : Profile) (message : String) (freshId : Nat) : Request :=
  { id := freshId, room_id := room.id, tenant_id := profile.id, owner_id := room.owner_id,
    message := requestMessage message, status := "pending" }

/-- The create path of the lifecycle: RoomDetails fetches the room on mount (a failing fetch
navigates away, so no insert can happen: tagged validationError), then handleSendRequest checks
the session (throw "Not authenticated"), resolves the profile by user_id (throw "Profile not
found"), and inserts the newRequest row. On every failing path the tables are returned
unchanged. -/
def createRequest (db : DB) (session : Option Nat) (roomId : Nat) (message : String)
    (freshId : Nat) : DB × Option ReqError :=
  match fetchRoomDetails db roomId with
  | none => (db, some ReqError.validationError)
  | some room =>
    match session with
    | none => (db, some ReqError.notAuthenticated)
    | some userId =>
      match db.profiles.find? (fun p => p.user_id = userId) with
      | none => (db, some ReqError.profileNotFound)
      | some profile =>
        ({ db with requests := db.requests ++ [newRequest room profile message freshId] }, none)

/-- OwnerDashboard.handleRequestAction: update requests set status = newStatus where
id = requestId. The update is unconditional: the source neither reads the current status nor
compares the caller against the request's owner_id, and it reports success whenever the store
accepts the update. -/
def handleRequestAction (db : DB) (requestId : Nat) (newStatus : String) : DB :=
  { db with requests :=
      db.requests.map (fun r => if r.id = requestId then { r with status := newStatus } else r) }

/-- The decide(request_id, decision, actor_id) operation of the design document, as the client
realises it: handleRequestAction takes no actor argument and performs no ownership or status
check, so the actor is ignored entirely. -/
def decideRequest (db : DB) (requestId : Nat) (newStatus : String) (_actorId : Nat) : DB :=
  handleRequestAction db requestId newStatus

/-- The tenant sub-object fetchOwnerData selects for each request:
tenant:profiles!requests_tenant_id_fkey (name, email, phone). -/
structure TenantContact where
  name : String
  email : String
  phone : String
deriving DecidableEq

/-- The room sub-object fetchOwnerData selects for each request:
room:rooms!requests_room_id_fkey (address_line, city, rent). -/
structure RoomSummary where
  address_line : String
  city : String
  rent : Int
deriving DecidableEq

/-- One row of the owner's request feed: all request columns plus the joined tenant contact and
room summary, exactly as fetchOwnerData's select builds it. -/
structure OwnerRequestRow where
  id : Nat
  room_id : Nat
  tenant_id : Nat
  owner_id : Nat
  message : String
  status : String
  tenant : Option TenantContact
  room : Option RoomSummary
deriving DecidableEq

/-- The joined row fetchOwnerData produces for one request: the foreign-key joins resolve the
tenant profile and the room by id. The select names the contact columns (name, email, phone)
unconditionally; there is no condition on the request's status anywhere in the query. -/
def ownerRow (db : DB) (r : Request) : OwnerRequestRow :=
  { id := r.id
    room_id := r.room_id
    tenant_id := r.tenant_id
    owner_id := r.owner_id
    message := r.message
    status := r.status
    tenant := (db.profiles.find? (fun p => p.id = r.tenant_id)).map
      (fun p => { name := p.name, email := p.email, phone := p.phone })
    room := (db.rooms.find? (fun rm => rm.id = r.room_id)).map
      (fun rm => { address_line := rm.address_line, city := rm.city, rent := rm.rent }) }

/-- OwnerDashboard.fetchOwnerData, requests query: select every request with
owner_id = profile.id, each joined with the tenant contact and the room summary. -/
def listForOwner (db : DB) (ownerId : Nat) : List OwnerRequestRow :=
  (db.requests.filter (fun r => r.owner_id = ownerId)).map (ownerRow db)

/-- OwnerDashboard line 259: the email and phone of the tenant are rendered only when the
request's status is "accepted". This is a rendering condition in the component, applied to data
the feed already holds. -/
def contactRendered (row : OwnerRequestRow) : Bool :=
  row.status = "accepted"

/-- OwnerDashboard line 272: the accept and reject buttons are rendered only when the request's
status is "pending". -/
def actionButtonsRendered (r : Request) : Bool :=
  r.status = "pending"

/-- The form fields AddRoomForm.handleSubmit inserts (rent already parsed to a number, see the
Room structure). -/
structure RoomForm where
  address_line : String
  city : String
  district : String
  taluka : String
  state : String
  pincode : String
  landmark : String
  rent : Int
  room_type : String
  features : Features
deriving DecidableEq

/-- The rooms row AddRoomForm.handleSubmit inserts (AddRoomForm.tsx lines 65 to 82): owner_id
from the resolved profile, every form field copied over, and is_active hard-coded to true.
freshId stands for the store-generated id. -/
def newRoom (profile : Profile) (form : RoomForm) (freshId : Nat) : Room :=
  { id := freshId, owner_id := profile.id, address_line := form.address_line, city := form.city,
    district := form.district, taluka := form.taluka, state := form.state,
    pincode := form.pincode, landmark := form.landmark, rent := form.rent,
    room_type := form.room_type, features := form.features, is_active := true }

/-- AddRoomForm.handleSubmit: check the session (throw "Not authenticated"), resolve the profile
by user_id (throw "Profile not found"), then insert the newRoom row. -/
def handleSubmit (db : DB) (session : Option Nat) (form : RoomForm) (freshId : Nat) :
    DB × Option ReqError :=
  match session with
  | none => (db, some ReqError.notAuthenticated)
  | some userId =>
    match db.profiles.find? (fun p => p.user_id = userId) with
    | none => (db, some ReqError.profileNotFound)
    | some profile =>
      ({ db with rooms := db.rooms ++ [newRoom profile form freshId] }, none)

/-- TenantDashboard.fetchRooms: select from rooms where is_active = true. This is the tenant's
room listing. -/
def fetchRooms (db : DB) : List Room :=
  db.rooms.filter (fun rm => rm.is_active)

/-- All amenity flags off; used by the concrete table states below. -/
def noFeatures : Features :=
  { wifi := false, electricity := false, water := false, parking := false,
    furnished := false, security := false }

/-- C1 fixture: a single request that is already accepted (owner 1, tenant 2). -/
def reqC1 : Request :=
  { id := 1, room_id := 1, tenant_id := 2, owner_id := 1, message := "hi", status := "accepted" }

/-- C1 fixture: table state holding just the accepted request. -/
def dbC1 : DB :=
  { profiles := [], rooms := [], requests := [reqC1] }

/-- C2 fixture: the tenant profile whose contact the feed exposes. -/
def profC2 : Profile :=
  { id := 2, user_id := 20, role := "tenant", name := "Tina", email := "tina@example.com",
    phone := "555" }

/-- C2 fixture: a pending request from tenant 2 to owner 1. -/
def reqC2 : Request :=
  { id := 1, room_id := 1, tenant_id := 2, owner_id := 1, message := "hi", status := "pending" }

/-- C2 fixture: the room the pending request targets. -/
def roomC2 : Room :=
  { id := 1, owner_id := 1, address_line := "12 A St", city := "Pune", district := "PN",
    taluka := "Hv", state := "MH", pincode := "411001", landmark := "", rent := 5000,
    room_type := "student", features := noFeatures, is_active := true }

/-- C2 fixture: table state with the tenant profile, one room and the pending request. -/
def dbC2 : DB :=
  { profiles := [profC2], rooms := [roomC2], requests := [reqC2] }

/-- C3 fixture: a pending request owned by owner 1. -/
def reqC3 : Request :=
  { id := 1, room_id := 1, tenant_id := 2, owner_id := 1, message := "hi", status := "pending" }

/-- C3 fixture: table state holding just the pending request. -/
def dbC3 : DB :=
  { profiles := [], rooms := [], requests := [reqC3] }

/-- C4 fixture: an inactive room (is_active = false) owned by owner 1. -/
def roomC4 : Room :=
  { id := 1, owner_id := 1, address_line := "12 A St", city := "Pune", district := "PN",
    taluka := "Hv", state := "MH", pincode := "411001", landmark := "", rent := 5000,
    room_type := "student", features := noFeatures, is_active := false }

/-- C4 fixture: the tenant profile of the session user 20. -/
def profC4 : Profile :=
  { id := 2, user_id := 20, role := "tenant", name := "Tina", email := "tina@example.com",
    phone := "555" }

/-- C4 fixture: table state with the inactive room, the tenant profile and no requests. -/
def dbC4 : DB :=
  { profiles := [profC4], rooms := [roomC4], requests := [] }

/-- C5 fixture: an active room owned by owner 1. -/
def roomC5 : Room :=
  { id := 1, owner_id := 1, address_line := "12 A St", city := "Pune", district := "PN",
    taluka := "Hv", state := "MH", pincode := "411001", landmark := "", rent := 5000,
    room_type := "student", features := noFeatures, is_active := true }

/-- C5 fixture: the tenant profile of the session user 20. -/
def profC5 : Profile :=
  { id := 2, user_id := 20, role := "tenant", name := "Tina", email := "tina@example.com",
    phone := "555" }

/-- C5 fixture: table state with one room, the tenant profile and no requests. -/
def dbC5 : DB :=
  { profiles := [profC5], rooms := [roomC5], requests := [] }

/-- C6 fixture: an active room owned by owner 3. -/
def roomC6 : Room :=
  { id := 4, owner_id := 3, address_line := "9 B St", city := "Pune", district := "PN",
    taluka := "Hv", state := "MH", pincode := "411001", landmark := "", rent := 7000,
    room_type := "family", features := noFeatures, is_active := true }

/-- C6 fixture: the tenant profile of the session user 20. -/
def profC6 : Profile :=
  { id := 2, user_id := 20, role := "tenant", name := "Tina", email := "tina@example.com",
    phone := "555" }

/-- C6 fixture: table state with one room, the tenant profile and no requests. -/
def dbC6 : DB :=
  { profiles := [profC6], rooms := [roomC6], requests := [] }

/-- C7 fixture: an active room owned by owner 1, resolvable by id 1. -/
def roomC7 : Room :=
  { id := 1, owner_id := 1, address_line := "12 A St", city := "Pune", district := "PN",
    taluka := "Hv", state := "MH", pincode := "411001", landmark := "", rent := 5000,
    room_type := "student", features := noFeatures, is_active := true }

/-- C7 fixture: table state with the room, no profiles and no requests. -/
def dbC7 : DB :=
  { profiles := [], rooms := [roomC7], requests := [] }

/-- C8 fixture: the tenant profile of the session user 20. -/
def profC8 : Profile :=
  { id := 2, user_id := 20, role := "tenant", name := "Tina", email := "tina@example.com",
    phone := "555" }

/-- C8 fixture: table state with no rooms at all, so no room id resolves. -/
def dbC8 : DB :=
  { profiles := [profC8], rooms := [], requests := [] }

/-- C9 fixture: an active room owned by owner 1. -/
def roomC9 : Room :=
  { id := 1, owner_id := 1, address_line := "12 A St", city := "Pune", district := "PN",
    taluka := "Hv", state := "MH", pincode := "411001", landmark := "", rent := 5000,
    room_type := "student", features := noFeatures, is_active := true }

/-- C9 fixture: the tenant profile of the session user 20. -/
def profC9 : Profile :=
  { id := 2, user_id := 20, role := "tenant", name := "Tina", email := "tina@example.com",
    phone := "555" }

/-- C9 fixture: table state with one room, the tenant profile and no requests. -/
def dbC9 : DB :=
  { profiles := [profC9], rooms := [roomC9], requests := [] }

/-- C10 fixture: the owner profile of the session user 10. -/
def profC10 : Profile :=
  { id := 1, user_id := 10, role := "owner", name := "Omar", email := "omar@example.com",
    phone := "777" }

/-- C10 fixture: table state with the owner profile and no rooms. -/
def dbC10 : DB :=
  { profiles := [profC10], rooms := [], requests := [] }

/-- C10 fixture: the form data the owner submits. -/
def formC10 : RoomForm :=
  { address_line := "12 A St", city := "Pune", district := "PN", taluka := "Hv", state := "MH",
    pincode := "411001", landmark := "", rent := 5000, room_type := "student",
    features := noFeatures }

/-- C1: the claim is false on the code. At a request whose status is already "accepted",
handleRequestAction (the decide call) does not leave the status unchanged and performs an
accepted-to-rejected transition: the update is unconditional and reports success. -/
theorem C1_counterexample :
    reqC1.status = "accepted" ∧
    handleRequestAction dbC1 1 "rejected" ≠ dbC1 ∧
    (handleRequestAction dbC1 1 "rejected").requests = [{ reqC1 with status := "rejected" }] := by
  decide

/-- C1 (amended): terminal states are guarded only by the UI. For a request whose status is
accepted or rejected, the accept and reject buttons are not rendered, so the dashboard only ever
initiates pending-to-accepted and pending-to-rejected transitions; but a decide call reaching
handleRequestAction overwrites the status with the decision regardless of the current status and
returns no InvalidTransition. -/
theorem C1_terminal_guarded_only_by_ui (db : DB) (r : Request) (d : String)
    (hmem : r ∈ db.requests) (hterm : r.status = "accepted" ∨ r.status = "rejected") :
    actionButtonsRendered r = false ∧
    { r with status := d } ∈ (handleRequestAction db r.id d).requests := by
  constructor
  · unfold actionButtonsRendered
    rcases hterm with h | h <;> rw [h] <;> decide
  · unfold handleRequestAction
    refine List.mem_map.mpr ⟨r, hmem, ?_⟩
    simp

/-- C1 witness: the amended statement evaluated at the concrete accepted request. -/
theorem C1_terminal_guarded_only_by_ui_witness :
    actionButtonsRendered reqC1 = false ∧
    { reqC1 with status := "rejected" } ∈ (handleRequestAction dbC1 reqC1.id "rejected").requests :=
  C1_terminal_guarded_only_by_ui dbC1 reqC1 "rejected" (by decide) (Or.inl (by decide))

/-- C2: the claim is false on the code. The owner feed row produced for a pending request
carries the tenant's email and phone: the select joins the contact columns unconditionally. -/
theorem C2_counterexample :
    reqC2.status = "pending" ∧
    (listForOwner dbC2 1).map (fun row => row.status) = ["pending"] ∧
    (listForOwner dbC2 1).map (fun row => row.tenant) =
      [some { name := "Tina", email := "tina@example.com", phone := "555" }] := by
  decide

/-- C2 (amended): listForOwner returns the tenant contact (name, email, phone) for every
request of the owner regardless of status — the tenant field of a feed row does not depend on
the request's status — and the withholding is only conditional rendering: the dashboard renders
email and phone exactly when the row's status is "accepted". -/
theorem C2_contact_in_feed_regardless_of_status (db : DB) (r : Request) (s : String) (oid : Nat)
    (hmem : r ∈ db.requests) (hown : r.owner_id = oid) :
    (ownerRow db r).tenant = (ownerRow db { r with status := s }).tenant ∧
    (contactRendered (ownerRow db r) = true ↔ r.status = "accepted") ∧
    ownerRow db r ∈ listForOwner db oid := by
  refine ⟨rfl, ?_, ?_⟩
  · unfold contactRendered ownerRow
    simp
  · unfold listForOwner
    refine List.mem_map.mpr ⟨r, ?_, rfl⟩
    rw [List.mem_filter]
    exact ⟨hmem, by simp [hown]⟩

/-- C2 witness: the amended statement evaluated at the concrete pending request. -/
theorem C2_contact_in_feed_regardless_of_status_witness :
    (ownerRow dbC2 reqC2).tenant = (ownerRow dbC2 { reqC2 with status := "accepted" }).tenant ∧
    (contactRendered (ownerRow dbC2 reqC2) = true ↔ reqC2.status = "accepted") ∧
    ownerRow dbC2 reqC2 ∈ listForOwner dbC2 1 :=
  C2_contact_in_feed_regardless_of_status dbC2 reqC2 "accepted" 1 (by decide) (by decide)

/-- C3: the claim is false on the code. Actor 2 is not the owner (the request's owner_id is 1),
yet the decide call changes the request's state to "accepted" instead of returning Forbidden
and leaving it unchanged: handleRequestAction never consults the actor. -/
theorem C3_counterexample :
    reqC3.owner_id = 1 ∧ (2 : Nat) ≠ 1 ∧
    decideRequest dbC3 1 "accepted" 2 ≠ dbC3 ∧
    (decideRequest dbC3 1 "accepted" 2).requests = [{ reqC3 with status := "accepted" }] := by
  decide

/-- C3 (amended): the decide call is actor-independent: its result is the same for every
actor_id, and for any actor — in particular one different from the request's owner_id — the
status update is applied; no Forbidden check exists in the client code. -/
theorem C3_decide_ignores_actor (db : DB) (requestId : Nat) (d : String) (a b : Nat)
    (r : Request) (hmem : r ∈ db.requests) (hid : r.id = requestId) :
    decideRequest db requestId d a = decideRequest db requestId d b ∧
    { r with status := d } ∈ (decideRequest db requestId d a).requests := by
  refine ⟨rfl, ?_⟩
  unfold decideRequest handleRequestAction
  refine List.mem_map.mpr ⟨r, hmem, ?_⟩
  simp [hid]

/-- C3 witness: the amended statement evaluated at the concrete pending request, with actor 2
distinct from the owning owner 1. -/
theorem C3_decide_ignores_actor_witness :
    decideRequest dbC3 1 "accepted" 2 = decideRequest dbC3 1 "accepted" 5 ∧
    { reqC3 with status := "accepted" } ∈ (decideRequest dbC3 1 "accepted" 2).requests :=
  C3_decide_ignores_actor dbC3 1 "accepted" 2 5 reqC3 (by decide) (by decide)


/-- Success characterization of the create path, shared by the round-trip and message theorems:
with the room and the profile resolving, the create call appends exactly the inserted row and
reports no error. -/
theorem createRequest_resolves (db : DB) (u roomId fid : Nat) (msg : String) (room : Room)
    (p : Profile) (hroom : fetchRoomDetails db roomId = some room)
    (hprof : db.profiles.find? (fun q => q.user_id = u) = some p) :
    createRequest db (some u) roomId msg fid =
      ({ db with requests := db.requests ++ [newRequest room p msg fid] }, none) := by
  unfold createRequest
  simp only [hroom, hprof]

/-- C4: the claim is false on the code. Against the inactive room (is_active = false) the
create call of tenant profile 2 succeeds: the error component is none, not ValidationError, and
a pending Request is persisted. The room fetch never inspects is_active. -/
theorem C4_counterexample :
    roomC4.is_active = false ∧
    (createRequest dbC4 (some 20) 1 "hi" 7).2 = none ∧
    (createRequest dbC4 (some 20) 1 "hi" 7).1.requests = [newRequest roomC4 profC4 "hi" 7] := by
  decide

/-- C4 (amended): the create call fails with ValidationError exactly when the room_id does not
resolve to an existing room; the room's is_active flag is never consulted, so a create against
an inactive room proceeds like one against an active room. -/
theorem C4_validation_iff_room_missing (db : DB) (session : Option Nat) (roomId : Nat)
    (msg : String) (fid : Nat) :
    (createRequest db session roomId msg fid).2 = some ReqError.validationError ↔
      fetchRoomDetails db roomId = none := by
  unfold createRequest
  cases h : fetchRoomDetails db roomId with
  | none => simp
  | some room =>
    cases session with
    | none => simp
    | some u =>
      cases hp : db.profiles.find? (fun p => p.user_id = u) with
      | none => simp [hp]
      | some p => simp [hp]

/-- C5: round-trip. From a state with no requests, a successful create of "hello" followed by
listForOwner on the room's owner returns exactly one row, and that row has status pending and
message "hello" (a non-empty message is stored verbatim). -/
theorem C5_roundtrip (db : DB) (u roomId fid : Nat) (room : Room) (p : Profile)
    (hreq : db.requests = [])
    (hroom : fetchRoomDetails db roomId = some room)
    (hprof : db.profiles.find? (fun q => q.user_id = u) = some p) :
    ∃ row : OwnerRequestRow,
      listForOwner (createRequest db (some u) roomId "hello" fid).1 room.owner_id = [row] ∧
      row.status = "pending" ∧ row.message = "hello" := by
  rw [createRequest_resolves db u roomId fid "hello" room p hroom hprof, hreq]
  refine ⟨ownerRow { db with requests := [] ++ [newRequest room p "hello" fid] }
    (newRequest room p "hello" fid), ?_, rfl, ?_⟩
  · simp [listForOwner, newRequest]
  · show requestMessage "hello" = "hello"
    decide

/-- C5 witness: the round-trip evaluated on the concrete one-room state. -/
theorem C5_roundtrip_witness :
    ∃ row : OwnerRequestRow,
      listForOwner (createRequest dbC5 (some 20) 1 "hello" 7).1 roomC5.owner_id = [row] ∧
      row.status = "pending" ∧ row.message = "hello" :=
  C5_roundtrip dbC5 20 1 7 roomC5 profC5 rfl (by decide) (by decide)

/-- C6: every successful create appends exactly one new Request whose status is pending and
whose owner_id equals the owner_id of the room the given room_id resolved to at creation. -/
theorem C6_create_pending_owner (db : DB) (sess : Option Nat) (roomId fid : Nat)
    (msg : String) (db' : DB)
    (hok : createRequest db sess roomId msg fid = (db', none)) :
    ∃ room : Room, fetchRoomDetails db roomId = some room ∧
      ∃ nr : Request, db'.requests = db.requests ++ [nr] ∧
        nr.status = "pending" ∧ nr.owner_id = room.owner_id := by
  cases hroomq : fetchRoomDetails db roomId with
  | none =>
    unfold createRequest at hok
    rw [hroomq] at hok
    simp at hok
  | some room =>
    cases sess with
    | none =>
      unfold createRequest at hok
      simp [hroomq] at hok
    | some u =>
      cases hprofq : db.profiles.find? (fun q => q.user_id = u) with
      | none =>
        unfold createRequest at hok
        simp [hroomq, hprofq] at hok
      | some p =>
        rw [createRequest_resolves db u roomId fid msg room p hroomq hprofq] at hok
        simp only [Prod.mk.injEq] at hok
        refine ⟨room, rfl, newRequest room p msg fid, ?_, rfl, rfl⟩
        rw [← hok.1]

/-- C6 witness: the statement evaluated at a concrete successful create. -/
theorem C6_create_pending_owner_witness :
    ∃ room : Room, fetchRoomDetails dbC6 4 = some room ∧
      ∃ nr : Request, (createRequest dbC6 (some 20) 4 "hi" 7).1.requests =
          dbC6.requests ++ [nr] ∧ nr.status = "pending" ∧ nr.owner_id = room.owner_id :=
  C6_create_pending_owner dbC6 (some 20) 4 7 "hi" (createRequest dbC6 (some 20) 4 "hi" 7).1
    (by decide)

/-- C7: with the room resolving, a create call with no current session fails with
NotAuthenticated, and a create call whose authenticated user has no linked profile fails with
ProfileNotFound; in both cases the tables are returned unchanged, so no Request is created. -/
theorem C7_auth_errors (db : DB) (roomId fid u : Nat) (msg : String) (room : Room)
    (hroom : fetchRoomDetails db roomId = some room)
    (hu : db.profiles.find? (fun p => p.user_id = u) = none) :
    createRequest db none roomId msg fid = (db, some ReqError.notAuthenticated) ∧
    createRequest db (some u) roomId msg fid = (db, some ReqError.profileNotFound) := by
  constructor
  · unfold createRequest
    simp only [hroom]
  · unfold createRequest
    simp only [hroom, hu]

/-- C7 witness: both failure modes evaluated on the concrete state with a room and no
profiles. -/
theorem C7_auth_errors_witness :
    createRequest dbC7 none 1 "hi" 7 = (dbC7, some ReqError.notAuthenticated) ∧
    createRequest dbC7 (some 20) 1 "hi" 7 = (dbC7, some ReqError.profileNotFound) :=
  C7_auth_errors dbC7 1 7 20 "hi" roomC7 (by decide) (by decide)

/-- C8: a create call whose room_id does not resolve to an existing room fails with
ValidationError and returns the tables unchanged: no Request row is persisted. -/
theorem C8_nonexistent_room (db : DB) (sess : Option Nat) (roomId fid : Nat) (msg : String)
    (hroom : fetchRoomDetails db roomId = none) :
    createRequest db sess roomId msg fid = (db, some ReqError.validationError) := by
  unfold createRequest
  simp only [hroom]

/-- C8 witness: the failure evaluated on the concrete state with no rooms. -/
theorem C8_nonexistent_room_witness :
    createRequest dbC8 (some 20) 1 "hi" 7 = (dbC8, some ReqError.validationError) :=
  C8_nonexistent_room dbC8 (some 20) 1 7 "hi" (by decide)

/-- C9: with the room and the profile resolving, a create call with the empty message persists
the default text "I'm interested in this room", and a create call with a non-empty message
persists that message verbatim. -/
theorem C9_message_defaulting (db : DB) (u roomId fid : Nat) (room : Room) (p : Profile)
    (msg : String)
    (hroom : fetchRoomDetails db roomId = some room)
    (hprof : db.profiles.find? (fun q => q.user_id = u) = some p)
    (hmsg : msg ≠ "") :
    (createRequest db (some u) roomId "" fid).1.requests.map (fun r => r.message) =
      db.requests.map (fun r => r.message) ++ ["I\x27m interested in this room"] ∧
    (createRequest db (some u) roomId msg fid).1.requests.map (fun r => r.message) =
      db.requests.map (fun r => r.message) ++ [msg] := by
  constructor
  · rw [createRequest_resolves db u roomId fid "" room p hroom hprof]
    simp [newRequest, requestMessage]
  · rw [createRequest_resolves db u roomId fid msg room p hroom hprof]
    simp [newRequest, requestMessage, hmsg]

/-- C9 witness: both message behaviours evaluated on the concrete one-room state. -/
theorem C9_message_defaulting_witness :
    (createRequest dbC9 (some 20) 1 "" 7).1.requests.map (fun r => r.message) =
      dbC9.requests.map (fun r => r.message) ++ ["I\x27m interested in this room"] ∧
    (createRequest dbC9 (some 20) 1 "hey" 7).1.requests.map (fun r => r.message) =
      dbC9.requests.map (fun r => r.message) ++ ["hey"] :=
  C9_message_defaulting dbC9 20 1 7 roomC9 profC9 "hey" (by decide) (by decide) (by decide)

/-- C10: every successful add-room submission appends exactly the newRoom row, that row is
persisted with is_active = true, and it is contained in the tenant listing (fetchRooms) of the
resulting state: a newly created room is immediately visible to tenants. -/
theorem C10_new_room_is_active (db : DB) (u fid : Nat) (form : RoomForm) (p : Profile)
    (hprof : db.profiles.find? (fun q => q.user_id = u) = some p) :
    (handleSubmit db (some u) form fid).1.rooms = db.rooms ++ [newRoom p form fid] ∧
    (newRoom p form fid).is_active = true ∧
    newRoom p form fid ∈ fetchRooms (handleSubmit db (some u) form fid).1 := by
  have hsub : handleSubmit db (some u) form fid =
      ({ db with rooms := db.rooms ++ [newRoom p form fid] }, none) := by
    unfold handleSubmit
    simp only [hprof]
  refine ⟨by rw [hsub], rfl, ?_⟩
  rw [hsub]
  unfold fetchRooms
  refine List.mem_filter.mpr ⟨?_, rfl⟩
  exact List.mem_append_right _ (List.mem_singleton_self _)

/-- C10 witness: the statement evaluated at the concrete owner submission. -/
theorem C10_new_room_is_active_witness :
    (handleSubmit dbC10 (some 10) formC10 1).1.rooms =
      dbC10.rooms ++ [newRoom profC10 formC10 1] ∧
    (newRoom profC10 formC10 1).is_active = true ∧
    newRoom profC10 formC10 1 ∈ fetchRooms (handleSubmit dbC10 (some 10) formC10 1).1 :=
  C10_new_room_is_active dbC10 10 1 formC10 profC10 (by decide)
